import Mathlib

/-!
Verification of the OVN BGPVPN service driver
(`networking_bgpvpn/neutron/services/service_drivers/ovn/`): the
reconciliation worker (`helper.py`), its request handlers, and the
driver's precommit checks and registry callbacks (`ovn.py`), shallowly
embedded as executable Lean definitions.
-/

namespace BgpvpnOvn

/-! ## Constants (`common/constants.py`) -/

def OVN_SUPPORTED_BGPVPN_TYPES : List String := ["l3"]

def REQ_TYPE_EXIT : String := "exit"

def REQ_TYPE_CREATE_ROUTER_ASSOC : String := "create_router_assoc"

def REQ_TYPE_DELETE_ROUTER_ASSOC : String := "delete_router_assoc"

def REQ_TYPE_ADD_ROUTER_INTERFACE : String := "add_router_interface"

def OVN_EVPN_VNI_EXT_ID_KEY : String := "neutron_bgpvpn:vni"

def OVN_EVPN_AS_EXT_ID_KEY : String := "neutron_bgpvpn:as"

/-- Modelled from the spec: the router-port owner set
(`neutron_lib.constants.ROUTER_PORT_OWNERS`, an external library
constant): device-owner values marking ports that belong to a router. -/
def ROUTER_PORT_OWNERS : List String :=
  ["network:router_interface",
   "network:ha_router_replicated_interface",
   "network:router_interface_distributed",
   "network:router_centralized_snat",
   "network:router_gateway"]

/-! ## The `external_ids` map of a logical switch port

An association list of string keys to string values, with the
key-level operations the OVSDB commands perform. -/

abbrev ExtIds := List (String × String)

def extGet : ExtIds → String → Option String
  | [], _ => none
  | p :: rest, k => if p.1 == k then some p.2 else extGet rest k

def extHasKey (m : ExtIds) (k : String) : Bool :=
  m.any (fun p => p.1 == k)

/-- Modelled from the spec: `setField` on a map column "merges the two
annotation keys into the existing map rather than replacing it
wholesale" — setting one key updates entries with that key in place,
or appends the pair when the key is absent. -/
def extSet (m : ExtIds) (k v : String) : ExtIds :=
  if extHasKey m k then
    m.map (fun p => if p.1 == k then (p.1, v) else p)
  else
    m ++ [(k, v)]

/-- Modelled from the spec: `removeField` "removes a single key,
leaving other keys untouched". -/
def extRemove (m : ExtIds) (k : String) : ExtIds :=
  m.filter (fun p => !(p.1 == k))

def mergeExtIds (m : ExtIds) (kvs : ExtIds) : ExtIds :=
  kvs.foldl (fun acc p => extSet acc p.1 p.2) m

/-! ## The OVN northbound store

A `Logical_Switch_Port` row has a name (the neutron port id), a row
uuid, and the `external_ids` map.  `lsp_get` resolves a port by name,
as `ovn_nbdb_api.lsp_get(port_id)` does. -/

structure LSPRow where
  name : String
  uuid : Nat
  external_ids : ExtIds
deriving DecidableEq, Repr

abbrev NbStore := List LSPRow

def lsp_get : NbStore → String → Option LSPRow
  | [], _ => none
  | r :: rest, n => if r.name == n then some r else lsp_get rest n

/-- The two mutation commands the driver issues:
`ovn_nbdb_api.db_set('Logical_Switch_Port', uuid, ('external_ids', kvs))`
and `ovn_nbdb_api.db_remove('Logical_Switch_Port', uuid, 'external_ids',
key)`. -/
inductive OvnCommand where
  | db_set (table : String) (uuid : Nat) (col : String) (kvs : ExtIds)
  | db_remove (table : String) (uuid : Nat) (col : String) (key : String)
deriving DecidableEq, Repr

/-- Modelled from the spec: the store contract — `setField` merges the
given keys into the row's `external_ids` map, `removeField` removes a
single key leaving other keys untouched; each command addresses one
row by uuid. -/
def applyCmdRow (c : OvnCommand) (r : LSPRow) : LSPRow :=
  match c with
  | .db_set table u col kvs =>
    if table == "Logical_Switch_Port" && col == "external_ids"
        && u == r.uuid then
      { r with external_ids := mergeExtIds r.external_ids kvs }
    else r
  | .db_remove table u col key =>
    if table == "Logical_Switch_Port" && col == "external_ids"
        && u == r.uuid then
      { r with external_ids := extRemove r.external_ids key }
    else r

def applyCommand (s : NbStore) (c : OvnCommand) : NbStore :=
  s.map (applyCmdRow c)

/-- Model of `OvnProviderHelper._execute_commands`: all commands are added to
one transaction (`with self.ovn_nbdb_api.transaction(...) as txn`) and
take effect together. -/
def execute_commands (s : NbStore) (commands : List OvnCommand) : NbStore :=
  commands.foldl applyCommand s

/-- The row-level residue of a transaction: each command applied in
order to one row. -/
def applyRow (commands : List OvnCommand) (r : LSPRow) : LSPRow :=
  commands.foldl (fun r c => applyCmdRow c r) r

/-! ## Data model -/

structure RouterAssoc where
  id : String := ""
  router_id : String := ""
  bgpvpn_id : String := ""
deriving DecidableEq, Repr

structure BgpvpnRec where
  id : String := ""
  vni : Option Nat := none
deriving DecidableEq, Repr

structure NeutronPort where
  id : String := ""
  device_id : String := ""
  device_owner : String := ""
deriving DecidableEq, Repr

/-- The helper's ambient inputs: the neutron directory's port table
(behind `directory.get_plugin().get_ports`) and the configured AS
number `cfg.CONF.ovn.bgp_as`. -/
structure Env where
  ports : List NeutronPort := []
  bgp_as : Nat := 0
deriving DecidableEq, Repr

/-- The filtered directory lookup
`get_ports(context, {'device_id': [router_id], 'device_owner':
ROUTER_PORT_OWNERS})`. -/
def get_ports (env : Env) (router_id : String) : List NeutronPort :=
  env.ports.filter
    (fun p => p.device_id == router_id
      && ROUTER_PORT_OWNERS.contains p.device_owner)

/-- The `info` dict of a request; a missing key raises `KeyError` when
indexed. -/
structure ReqInfo where
  router_association : Option RouterAssoc := none
  bgpvpn : Option BgpvpnRec := none
  port_id : Option String := none
deriving DecidableEq, Repr

structure Request where
  type : String := ""
  info : ReqInfo := {}
deriving DecidableEq, Repr

/-- Python dict indexing `info[k]`: `KeyError` when the key is absent. -/
def getKey {α : Type} (o : Option α) (k : String) : Except String α :=
  match o with
  | some a => Except.ok a
  | none => Except.error ("KeyError: " ++ k)

/-- Python `str(...)` applied to `bgpvpn.get('vni')`: `str(None)` is
the literal string `"None"`. -/
def pyStr : Option Nat → String
  | none => "None"
  | some n => toString n

/-! ## Request handlers (`OvnProviderHelper`) -/

/-- The per-port `lsp_get(iface['id']).execute(check_error=True)` loop:
collects the row uuid of every router port, raising if a port has no
logical switch port row. -/
def lspUuids (s : NbStore) : List NeutronPort → Except String (List Nat)
  | [] => Except.ok []
  | p :: rest =>
    match lsp_get s p.id with
    | none => Except.error ("RowNotFound: " ++ p.id)
    | some lsp =>
      match lspUuids s rest with
      | Except.ok us => Except.ok (lsp.uuid :: us)
      | Except.error e => Except.error e

/-- The command list `create_router_assoc` builds and hands to
`_execute_commands` as one transaction. -/
def create_router_assoc_commands (env : Env) (info : ReqInfo) (s : NbStore) :
    Except String (List OvnCommand) :=
  match getKey info.router_association "router_association" with
  | Except.error e => Except.error e
  | Except.ok router_assoc =>
    match getKey info.bgpvpn "bgpvpn" with
    | Except.error e => Except.error e
    | Except.ok bgpvpn =>
      let external_ids : ExtIds :=
        [(OVN_EVPN_VNI_EXT_ID_KEY, pyStr bgpvpn.vni),
         (OVN_EVPN_AS_EXT_ID_KEY, toString env.bgp_as)]
      let router_ports := get_ports env router_assoc.router_id
      match lspUuids s router_ports with
      | Except.error e => Except.error e
      | Except.ok port_ids =>
        Except.ok (port_ids.map (fun port_id =>
          OvnCommand.db_set "Logical_Switch_Port" port_id "external_ids"
            external_ids))

/-- Model of `OvnProviderHelper.create_router_assoc`: annotate every router
port of the association's router with the VNI and AS keys, in one
transaction. -/
def create_router_assoc (env : Env) (info : ReqInfo) (s : NbStore) :
    Except String NbStore :=
  match create_router_assoc_commands env info s with
  | Except.ok commands => Except.ok (execute_commands s commands)
  | Except.error e => Except.error e

/-- The command list `delete_router_assoc` builds: one `db_remove` of
the VNI key per router port. -/
def delete_router_assoc_commands (env : Env) (info : ReqInfo) (s : NbStore) :
    Except String (List OvnCommand) :=
  match getKey info.router_association "router_association" with
  | Except.error e => Except.error e
  | Except.ok router_assoc =>
    let router_ports := get_ports env router_assoc.router_id
    match lspUuids s router_ports with
    | Except.error e => Except.error e
    | Except.ok port_ids =>
      Except.ok (port_ids.map (fun port_id =>
        OvnCommand.db_remove "Logical_Switch_Port" port_id "external_ids"
          OVN_EVPN_VNI_EXT_ID_KEY))

/-- Model of `OvnProviderHelper.delete_router_assoc`: remove the VNI key from
every router port of the association's router, in one transaction. -/
def delete_router_assoc (env : Env) (info : ReqInfo) (s : NbStore) :
    Except String NbStore :=
  match delete_router_assoc_commands env info s with
  | Except.ok commands => Except.ok (execute_commands s commands)
  | Except.error e => Except.error e

/-- Model of `OvnProviderHelper.add_router_interface`: annotate the single
named port with the VNI and AS keys. -/
def add_router_interface (env : Env) (info : ReqInfo) (s : NbStore) :
    Except String NbStore :=
  match getKey info.port_id "port_id" with
  | Except.error e => Except.error e
  | Except.ok port_id =>
    match getKey info.bgpvpn "bgpvpn" with
    | Except.error e => Except.error e
    | Except.ok bgpvpn =>
      let external_ids : ExtIds :=
        [(OVN_EVPN_VNI_EXT_ID_KEY, pyStr bgpvpn.vni),
         (OVN_EVPN_AS_EXT_ID_KEY, toString env.bgp_as)]
      match lsp_get s port_id with
      | none => Except.error ("RowNotFound: " ++ port_id)
      | some lsp =>
        Except.ok (applyCommand s
          (OvnCommand.db_set "Logical_Switch_Port" lsp.uuid "external_ids"
            external_ids))

/-! ## The reconciliation worker -/

/-- Model of `OvnProviderHelper._init_bgpvpn_actions`: the request-type to
handler map, queried with `.get` (an unknown type yields `None`). -/
def bgpvpn_request_func_maps (env : Env) (request_type : String) :
    Option (ReqInfo → NbStore → Except String NbStore) :=
  if request_type == REQ_TYPE_CREATE_ROUTER_ASSOC then
    some (create_router_assoc env)
  else if request_type == REQ_TYPE_DELETE_ROUTER_ASSOC then
    some (delete_router_assoc env)
  else if request_type == REQ_TYPE_ADD_ROUTER_INTERFACE then
    some (add_router_interface env)
  else none

/-- Observable events of one worker-loop iteration: a handler ran to
completion, a handler raised (logged and swallowed), no handler was
registered for the type, the exit sentinel broke the loop, or the
store connection was closed (during `shutdown`). -/
inductive WorkerEvent where
  | handled (r : Request)
  | handlerError (r : Request)
  | skipped (r : Request)
  | exited
  | storeClosed
deriving DecidableEq, Repr

def eventRequest : WorkerEvent → Option Request
  | .handled r => some r
  | .handlerError r => some r
  | .skipped r => some r
  | .exited => none
  | .storeClosed => none

/-- Model of `OvnProviderHelper._request_handler`: dequeue one request at a
time from the FIFO; break on the exit sentinel; otherwise look up the
handler, run it (swallowing any exception), then dequeue the next.
The queue is modelled as the list of requests in enqueue order; the
result is the event trace and the final store. -/
def request_handler (env : Env) :
    List Request → NbStore → List WorkerEvent × NbStore
  | [], s => ([], s)
  | r :: rest, s =>
    if r.type == REQ_TYPE_EXIT then ([WorkerEvent.exited], s)
    else
      match bgpvpn_request_func_maps env r.type with
      | some handler =>
        match handler r.info s with
        | Except.ok s1 =>
          let res := request_handler env rest s1
          (WorkerEvent.handled r :: res.1, res.2)
        | Except.error _ =>
          let res := request_handler env rest s
          (WorkerEvent.handlerError r :: res.1, res.2)
      | none =>
        let res := request_handler env rest s
        (WorkerEvent.skipped r :: res.1, res.2)

/-- Model of `OvnProviderHelper.add_request`: `self._requests.put(req)` appends
to the tail of the FIFO. -/
def add_request (queue : List Request) (req : Request) : List Request :=
  queue ++ [req]

/-- The effect of one dequeued request on the store: the handler's new
store on success, the unchanged store when the handler raises or no
handler is registered. -/
def applyRequest (env : Env) (s : NbStore) (r : Request) : NbStore :=
  match bgpvpn_request_func_maps env r.type with
  | some handler =>
    match handler r.info s with
    | Except.ok s1 => s1
    | Except.error _ => s
  | none => s

/-- Model of `OvnProviderHelper.shutdown`: enqueue the exit sentinel on the
same FIFO, join the worker thread, then stop the store connection.
The trace is the worker's trace over the pending queue plus the
sentinel, followed by the store-close event. -/
def shutdown (env : Env) (pending : List Request) (s : NbStore) :
    List WorkerEvent × NbStore :=
  let res := request_handler env (pending ++ [{ type := REQ_TYPE_EXIT }]) s
  (res.1 ++ [WorkerEvent.storeClosed], res.2)

/-! ## Driver precommit checks and registry callbacks
(`OvnBGPVPNDriver`, `ovn.py`) -/

/-- The errors `_common_precommit_checks` can raise, each naming the
unsupported attribute (`BGPVPNRDNotSupported`, ...,
`BGPVPNTypeNotSupported`). -/
inductive BgpvpnDriverError where
  | rdNotSupported
  | rtNotSupported
  | itNotSupported
  | etNotSupported
  | localPrefNotSupported
  | typeNotSupported (bgp_type : Option String)
deriving DecidableEq, Repr

/-- The attributes of a BGPVPN API dict that
`_common_precommit_checks` reads via `.get(..., None)`. -/
structure BgpvpnApi where
  route_distinguishers : List String := []
  route_targets : List String := []
  import_targets : List String := []
  export_targets : List String := []
  local_pref : Option Nat := none
  type : Option String := none
deriving DecidableEq, Repr

/-- Python truthiness of a list value (`if bgpvpn.get(...):`). -/
def pyTruthyList (l : List String) : Bool := !l.isEmpty

/-- Python truthiness of an optional integer (`if
bgpvpn.get('local_pref', None):`): `None` and `0` are falsy. -/
def pyTruthyOptNat : Option Nat → Bool
  | none => false
  | some n => n != 0

/-- Python membership `bgp_type in <list of strings>` where
`bgp_type` may be `None` (`None` is in no list of strings). -/
def pyInListStr (o : Option String) (l : List String) : Bool :=
  match o with
  | some t => l.contains t
  | none => false

/-- Model of `OvnBGPVPNDriver._common_precommit_checks`. -/
def common_precommit_checks (bgpvpn : BgpvpnApi) :
    Except BgpvpnDriverError Unit :=
  if pyTruthyList bgpvpn.route_distinguishers then
    Except.error BgpvpnDriverError.rdNotSupported
  else if pyTruthyList bgpvpn.route_targets then
    Except.error BgpvpnDriverError.rtNotSupported
  else if pyTruthyList bgpvpn.import_targets then
    Except.error BgpvpnDriverError.itNotSupported
  else if pyTruthyList bgpvpn.export_targets then
    Except.error BgpvpnDriverError.etNotSupported
  else if pyTruthyOptNat bgpvpn.local_pref then
    Except.error BgpvpnDriverError.localPrefNotSupported
  else if !(pyInListStr bgpvpn.type OVN_SUPPORTED_BGPVPN_TYPES) then
    Except.error (BgpvpnDriverError.typeNotSupported bgpvpn.type)
  else Except.ok ()

def create_bgpvpn_precommit (bgpvpn : BgpvpnApi) :
    Except BgpvpnDriverError Unit :=
  common_precommit_checks bgpvpn

def update_bgpvpn_precommit (old_bgpvpn bgpvpn : BgpvpnApi) :
    Except BgpvpnDriverError Unit :=
  common_precommit_checks bgpvpn

/-- Per-error predicate: the raised error names an attribute that is
indeed offending in the checked record. -/
def offendingAttr (b : BgpvpnApi) : BgpvpnDriverError → Prop
  | .rdNotSupported => b.route_distinguishers ≠ []
  | .rtNotSupported => b.route_targets ≠ []
  | .itNotSupported => b.import_targets ≠ []
  | .etNotSupported => b.export_targets ≠ []
  | .localPrefNotSupported => ∃ n, b.local_pref = some n ∧ n ≠ 0
  | .typeNotSupported t => b.type = t ∧ b.type ≠ some "l3"

/-- An association of a BGPVPN with the routers it is associated to,
backing the directory lookup `get_bgpvpns(context, filters=
          {'routers': [router_id]})`. -/
structure BgpvpnDbEntry where
  bgpvpn : BgpvpnRec := {}
  routers : List String := []
deriving DecidableEq, Repr

/-- Modelled from the spec: the directory query `listBgpvpns(filters)`
restricted to a router filter — the BGPVPNs whose router associations
reference the given router (`BGPVPNPluginDb.get_bgpvpns` lives in the
plugin database layer, outside these sources). -/
def get_bgpvpns (db : List BgpvpnDbEntry) (router_id : String) :
    List BgpvpnRec :=
  (db.filter (fun e => e.routers.contains router_id)).map
    (fun e => e.bgpvpn)

/-- The payload of a `ROUTER_INTERFACE AFTER_CREATE` notification:
`payload.resource_id` is the router id, `payload.metadata.get('port')`
the new port (absent metadata raises inside the callback's
`try`-block and is logged). -/
structure RouterInterfacePayload where
  resource_id : String := ""
  port : Option NeutronPort := none
deriving DecidableEq, Repr

/-- Model of `OvnBGPVPNDriver.registry_router_interface_created`: returns the
request enqueued on the helper's FIFO, or `none` when nothing is
enqueued (no associated BGPVPN, or the payload raised and was only
logged). -/
def registry_router_interface_created (db : List BgpvpnDbEntry)
    (payload : RouterInterfacePayload) : Option Request :=
  match payload.port with
  | none => none
  | some port =>
    let bgpvpns := get_bgpvpns db payload.resource_id
    match bgpvpns with
    | [] => none
    | b :: _ =>
      some { type := REQ_TYPE_ADD_ROUTER_INTERFACE,
             info := { port_id := some port.id, bgpvpn := some b } }

/-! ## Concrete fixtures (used to exercise the theorems) -/

def envW : Env :=
  { ports :=
      [{ id := "port-1", device_id := "router-1",
         device_owner := "network:router_interface" },
       { id := "port-2", device_id := "router-1",
         device_owner := "network:router_gateway" },
       { id := "port-3", device_id := "router-2",
         device_owner := "network:router_interface" }],
    bgp_as := 64512 }

def sW : NbStore :=
  [{ name := "port-1", uuid := 11,
     external_ids := [("neutron:gw_port_id", "gwp")] },
   { name := "port-2", uuid := 12, external_ids := [] },
   { name := "port-3", uuid := 13, external_ids := [] }]

def raW : RouterAssoc :=
  { id := "assoc-1", router_id := "router-1", bgpvpn_id := "vpn-1" }

def portW : NeutronPort :=
  { id := "port-1", device_id := "router-1",
    device_owner := "network:router_interface" }

def bW : BgpvpnRec := { id := "vpn-1", vni := some 1000 }

def bNoneW : BgpvpnRec := { id := "vpn-2", vni := none }

def infoCreateW : ReqInfo :=
  { router_association := some raW, bgpvpn := some bW }

def infoDeleteW : ReqInfo := { router_association := some raW }

def infoAddW : ReqInfo :=
  { port_id := some "port-3", bgpvpn := some bNoneW }

def reqA : Request :=
  { type := REQ_TYPE_CREATE_ROUTER_ASSOC, info := infoCreateW }

def reqB : Request :=
  { type := REQ_TYPE_DELETE_ROUTER_ASSOC, info := infoDeleteW }

def reqC : Request :=
  { type := REQ_TYPE_ADD_ROUTER_INTERFACE, info := infoAddW }

def reqBadW : Request :=
  { type := REQ_TYPE_CREATE_ROUTER_ASSOC, info := {} }

def reqUnknownW : Request := { type := "remove_router_interface" }

def createResultW : NbStore :=
  match create_router_assoc envW infoCreateW sW with
  | Except.ok s => s
  | Except.error _ => []

def deleteResultW : NbStore :=
  match delete_router_assoc envW infoDeleteW createResultW with
  | Except.ok s => s
  | Except.error _ => []

def addResultW : NbStore :=
  match add_router_interface envW infoAddW sW with
  | Except.ok s => s
  | Except.error _ => []

def bgpvpnRejectW : BgpvpnApi := { route_distinguishers := ["64512:1"] }

def bgpvpnLocalPrefZeroW : BgpvpnApi :=
  { local_pref := some 0, type := some "l3" }

def bgpvpnDbW : List BgpvpnDbEntry :=
  [{ bgpvpn := bW, routers := ["router-1"] }]

def payloadAssocW : RouterInterfacePayload :=
  { resource_id := "router-1",
    port := some { id := "port-1", device_id := "router-1",
                   device_owner := "network:router_interface" } }

def payloadNoAssocW : RouterInterfacePayload :=
  { resource_id := "router-9", port := some { id := "port-9" } }

/-! ### Lemmas about the map operations -/

theorem extGet_map_replace_self (m : ExtIds) (k v : String)
    (h : extHasKey m k = true) :
    extGet (m.map (fun p => if p.1 == k then (p.1, v) else p)) k = some v := by
  induction m with
  | nil => simp [extHasKey] at h
  | cons p rest ih =>
    by_cases hp : p.1 == k
    · simp [extGet, hp]
    · have hrest : extHasKey rest k = true := by
        simp only [extHasKey, List.any_cons] at h
        rcases Bool.or_eq_true_iff.mp h with h1 | h2
        · exact absurd h1 hp
        · exact h2
      simp only [List.map_cons, hp, Bool.false_eq_true, if_false, extGet]
      exact ih hrest

theorem extGet_append_single_self (m : ExtIds) (k v : String)
    (h : extHasKey m k = false) :
    extGet (m ++ [(k, v)]) k = some v := by
  induction m with
  | nil => simp [extGet]
  | cons p rest ih =>
    have hp : (p.1 == k) = false := by
      simp only [extHasKey, List.any_cons] at h
      exact (Bool.or_eq_false_iff.mp h).1
    have hrest : extHasKey rest k = false := by
      simp only [extHasKey, List.any_cons] at h
      exact (Bool.or_eq_false_iff.mp h).2
    simp only [List.cons_append, extGet, hp, Bool.false_eq_true, if_false]
    exact ih hrest

theorem extGet_map_replace_ne (m : ExtIds) (k v k' : String) (h : k' ≠ k) :
    extGet (m.map (fun p => if p.1 == k then (p.1, v) else p)) k'
      = extGet m k' := by
  induction m with
  | nil => simp [extGet]
  | cons p rest ih =>
    by_cases hp : p.1 == k
    · have hp' : (p.1 == k') = false := by
        have hpk : p.1 = k := by simpa using hp
        subst hpk
        simpa using fun hh => h hh.symm
      simp only [List.map_cons, hp, if_true, extGet, hp', Bool.false_eq_true,
        if_false]
      exact ih
    · simp only [List.map_cons, hp, Bool.false_eq_true, if_false, extGet]
      by_cases hp' : p.1 == k'
      · simp [hp']
      · simp only [hp', Bool.false_eq_true, if_false]
        exact ih

theorem extGet_append_single_ne (m : ExtIds) (k v k' : String) (h : k' ≠ k) :
    extGet (m ++ [(k, v)]) k' = extGet m k' := by
  induction m with
  | nil =>
    simp only [List.nil_append, extGet]
    rw [if_neg (by simpa using fun hh : k = k' => h hh.symm)]
  | cons p rest ih =>
    simp only [List.cons_append, extGet]
    by_cases hp' : p.1 == k'
    · simp [hp']
    · simp only [hp', Bool.false_eq_true, if_false]
      exact ih

theorem extGet_extSet_self (m : ExtIds) (k v : String) :
    extGet (extSet m k v) k = some v := by
  unfold extSet
  by_cases h : extHasKey m k = true
  · simp only [h, if_true]
    exact extGet_map_replace_self m k v h
  · simp only [Bool.not_eq_true] at h
    simp only [h, Bool.false_eq_true, if_false]
    exact extGet_append_single_self m k v h

theorem extGet_extSet_ne (m : ExtIds) (k v k' : String) (h : k' ≠ k) :
    extGet (extSet m k v) k' = extGet m k' := by
  unfold extSet
  by_cases hk : extHasKey m k = true
  · simp only [hk, if_true]
    exact extGet_map_replace_ne m k v k' h
  · simp only [Bool.not_eq_true] at hk
    simp only [hk, Bool.false_eq_true, if_false]
    exact extGet_append_single_ne m k v k' h

theorem extGet_extRemove_self (m : ExtIds) (k : String) :
    extGet (extRemove m k) k = none := by
  induction m with
  | nil => simp [extRemove, extGet]
  | cons p rest ih =>
    by_cases hp : p.1 == k
    · simpa [extRemove, List.filter, hp] using ih
    · simpa [extRemove, List.filter, hp, extGet] using ih

theorem extGet_extRemove_ne (m : ExtIds) (k k' : String) (h : k' ≠ k) :
    extGet (extRemove m k) k' = extGet m k' := by
  induction m with
  | nil => simp [extRemove, extGet]
  | cons p rest ih =>
    by_cases hp : p.1 == k
    · have hp' : (p.1 == k') = false := by
        have : p.1 = k := by simpa using hp
        subst this
        simpa using fun hh => h hh.symm
      simpa [extRemove, List.filter, hp, extGet, hp'] using ih
    · by_cases hp' : p.1 == k'
      · simp [extRemove, List.filter, hp, extGet, hp']
      · simpa [extRemove, List.filter, hp, extGet, hp'] using ih

theorem extRemove_extRemove (m : ExtIds) (k : String) :
    extRemove (extRemove m k) k = extRemove m k := by
  simp [extRemove, List.filter_filter]

theorem extHasKey_eq_false_elim (m : ExtIds) (k : String)
    (h : extHasKey m k = false) : ∀ p ∈ m, (p.1 == k) = false := by
  intro p hp
  have hall := List.any_eq_false.mp
    (show m.any (fun p => p.1 == k) = false from h)
  simpa using hall p hp

theorem extSet_values (m : ExtIds) (k v : String) :
    ∀ p ∈ extSet m k v, p.1 = k → p.2 = v := by
  intro p hp hpk
  unfold extSet at hp
  by_cases hk : extHasKey m k = true
  · simp only [hk, if_true, List.mem_map] at hp
    obtain ⟨q, _, hq⟩ := hp
    by_cases hqk : q.1 == k
    · simp only [hqk, if_true] at hq
      rw [← hq]
    · simp only [hqk, Bool.false_eq_true, if_false] at hq
      subst hq
      exact absurd (by simpa using hpk) (by simpa using hqk)
  · simp only [Bool.not_eq_true] at hk
    simp only [hk, Bool.false_eq_true, if_false, List.mem_append,
      List.mem_singleton] at hp
    rcases hp with hp | hp
    · have hfalse := extHasKey_eq_false_elim m k hk p hp
      exact absurd (by simpa using hpk) (by simpa using hfalse)
    · subst hp
      rfl

theorem extSet_preserves_other_values (m : ExtIds) (kA vA kB vB : String)
    (hv : ∀ p ∈ m, p.1 = kA → p.2 = vA) (hne : kA ≠ kB) :
    ∀ p ∈ extSet m kB vB, p.1 = kA → p.2 = vA := by
  intro p hp hpk
  unfold extSet at hp
  by_cases hk : extHasKey m kB = true
  · simp only [hk, if_true, List.mem_map] at hp
    obtain ⟨q, hq, hqe⟩ := hp
    by_cases hqk : q.1 == kB
    · subst hqe
      simp only [hqk, if_true] at hpk
      exact absurd (hpk ▸ (by simpa using hqk)) hne
    · simp only [hqk, Bool.false_eq_true, if_false] at hqe
      subst hqe
      exact hv q hq hpk
  · simp only [Bool.not_eq_true] at hk
    simp only [hk, Bool.false_eq_true, if_false, List.mem_append,
      List.mem_singleton] at hp
    rcases hp with hp | hp
    · exact hv p hp hpk
    · subst hp
      exact absurd hpk.symm hne

theorem extHasKey_extSet_self (m : ExtIds) (k v : String) :
    extHasKey (extSet m k v) k = true := by
  unfold extSet
  by_cases hk : extHasKey m k = true
  · simp only [hk, if_true]
    obtain ⟨q, hq, hqk⟩ := List.any_eq_true.mp
      (show m.any (fun p => p.1 == k) = true from hk)
    refine List.any_eq_true.mpr ?_
    refine ⟨if q.1 == k then (q.1, v) else q, List.mem_map_of_mem _ hq, ?_⟩
    simp only [hqk, if_true]
  · simp only [Bool.not_eq_true] at hk
    simp only [hk, Bool.false_eq_true, if_false]
    refine List.any_eq_true.mpr ⟨(k, v), by simp, by simp⟩

theorem extHasKey_extSet_mono (m : ExtIds) (k k' v' : String)
    (h : extHasKey m k = true) :
    extHasKey (extSet m k' v') k = true := by
  unfold extSet
  obtain ⟨q, hq, hqk⟩ := List.any_eq_true.mp
    (show m.any (fun p => p.1 == k) = true from h)
  by_cases hk' : extHasKey m k' = true
  · simp only [hk', if_true]
    refine List.any_eq_true.mpr ?_
    refine ⟨if q.1 == k' then (q.1, v') else q, List.mem_map_of_mem _ hq, ?_⟩
    by_cases hqq : q.1 == k'
    · simpa [hqq] using hqk
    · simpa [hqq] using hqk
  · simp only [Bool.not_eq_true] at hk'
    simp only [hk', Bool.false_eq_true, if_false]
    exact List.any_eq_true.mpr ⟨q, List.mem_append_left _ hq, hqk⟩

theorem map_replace_eq_self (m : ExtIds) (k v : String)
    (hv : ∀ p ∈ m, p.1 = k → p.2 = v) :
    m.map (fun p => if p.1 == k then (p.1, v) else p) = m := by
  induction m with
  | nil => rfl
  | cons p rest ih =>
    have hp : (if p.1 == k then (p.1, v) else p) = p := by
      by_cases hpk : p.1 == k
      · have hval : p.2 = v := hv p (List.mem_cons_self _ _) (by simpa using hpk)
        simp [hpk, ← hval]
      · simp [hpk]
    simp only [List.map_cons, hp, List.cons.injEq, true_and]
    exact ih (fun q hq hqk => hv q (List.mem_cons_of_mem _ hq) hqk)

theorem extSet_eq_self (m : ExtIds) (k v : String)
    (hk : extHasKey m k = true) (hv : ∀ p ∈ m, p.1 = k → p.2 = v) :
    extSet m k v = m := by
  unfold extSet
  simp only [hk, if_true]
  exact map_replace_eq_self m k v hv

theorem mergeExtIds_pair_eq (m : ExtIds) (k1 v1 k2 v2 : String) :
    mergeExtIds m [(k1, v1), (k2, v2)] = extSet (extSet m k1 v1) k2 v2 := rfl

theorem mergeExtIds_pair_idem (m : ExtIds) (k1 v1 k2 v2 : String)
    (h : k1 ≠ k2) :
    mergeExtIds (mergeExtIds m [(k1, v1), (k2, v2)]) [(k1, v1), (k2, v2)]
      = mergeExtIds m [(k1, v1), (k2, v2)] := by
  rw [mergeExtIds_pair_eq, mergeExtIds_pair_eq]
  have hk1 : extHasKey (extSet (extSet m k1 v1) k2 v2) k1 = true :=
    extHasKey_extSet_mono _ _ _ _ (extHasKey_extSet_self _ _ _)
  have hv1 : ∀ p ∈ extSet (extSet m k1 v1) k2 v2, p.1 = k1 → p.2 = v1 :=
    extSet_preserves_other_values _ _ _ _ _ (extSet_values m k1 v1) h
  rw [extSet_eq_self _ _ _ hk1 hv1]
  exact extSet_eq_self _ _ _ (extHasKey_extSet_self _ _ _)
    (extSet_values _ _ _)

theorem extGet_mergeExtIds_pair_fst (m : ExtIds) (k1 v1 k2 v2 : String)
    (h : k1 ≠ k2) :
    extGet (mergeExtIds m [(k1, v1), (k2, v2)]) k1 = some v1 := by
  rw [mergeExtIds_pair_eq, extGet_extSet_ne _ _ _ _ h, extGet_extSet_self]

theorem extGet_mergeExtIds_pair_snd (m : ExtIds) (k1 v1 k2 v2 : String) :
    extGet (mergeExtIds m [(k1, v1), (k2, v2)]) k2 = some v2 := by
  rw [mergeExtIds_pair_eq, extGet_extSet_self]

/-! ### Lemmas about the store and transactions -/

theorem applyCmdRow_name (c : OvnCommand) (r : LSPRow) :
    (applyCmdRow c r).name = r.name := by
  cases c <;> simp only [applyCmdRow] <;> split <;> rfl

theorem applyCmdRow_uuid (c : OvnCommand) (r : LSPRow) :
    (applyCmdRow c r).uuid = r.uuid := by
  cases c <;> simp only [applyCmdRow] <;> split <;> rfl

theorem applyRow_name (commands : List OvnCommand) (r : LSPRow) :
    (applyRow commands r).name = r.name := by
  induction commands generalizing r with
  | nil => rfl
  | cons c cs ih =>
    simp only [applyRow, List.foldl_cons] at *
    rw [ih, applyCmdRow_name]

theorem applyRow_uuid (commands : List OvnCommand) (r : LSPRow) :
    (applyRow commands r).uuid = r.uuid := by
  induction commands generalizing r with
  | nil => rfl
  | cons c cs ih =>
    simp only [applyRow, List.foldl_cons] at *
    rw [ih, applyCmdRow_uuid]

theorem execute_commands_eq_map (commands : List OvnCommand) (s : NbStore) :
    execute_commands s commands = s.map (applyRow commands) := by
  induction commands generalizing s with
  | nil =>
    simp only [execute_commands, List.foldl_nil]
    rw [show applyRow [] = fun r : LSPRow => r from rfl]
    exact (List.map_id' s).symm
  | cons c cs ih =>
    simp only [execute_commands, List.foldl_cons] at *
    rw [show applyCommand s c = s.map (applyCmdRow c) from rfl, ih,
      List.map_map]
    rfl

theorem lsp_get_map (s : NbStore) (f : LSPRow → LSPRow)
    (hf : ∀ r, (f r).name = r.name) (n : String) :
    lsp_get (s.map f) n = (lsp_get s n).map f := by
  induction s with
  | nil => rfl
  | cons r rest ih =>
    simp only [List.map_cons, lsp_get, hf r]
    by_cases h : r.name == n
    · simp [h]
    · simp only [h, Bool.false_eq_true, if_false]
      exact ih

theorem lspUuids_mem (s : NbStore) (ports : List NeutronPort)
    (us : List Nat) (h : lspUuids s ports = Except.ok us) :
    ∀ p ∈ ports, ∃ row, lsp_get s p.id = some row ∧ row.uuid ∈ us := by
  induction ports generalizing us with
  | nil => intro p hp; exact absurd hp (List.not_mem_nil p)
  | cons q rest ih =>
    intro p hp
    simp only [lspUuids] at h
    cases hq : lsp_get s q.id with
    | none => rw [hq] at h; exact absurd h (by simp)
    | some lsp =>
      rw [hq] at h
      cases hrest : lspUuids s rest with
      | error e => rw [hrest] at h; exact absurd h (by simp)
      | ok us' =>
        rw [hrest] at h
        have hus : us = lsp.uuid :: us' := by
          injection h with h'; exact h'.symm
        subst hus
        rcases List.mem_cons.mp hp with hpq | hpr
        · subst hpq
          exact ⟨lsp, hq, List.mem_cons_self _ _⟩
        · obtain ⟨row, hrow, hmem⟩ := ih us' hrest p hpr
          exact ⟨row, hrow, List.mem_cons_of_mem _ hmem⟩

theorem lspUuids_map (s : NbStore) (f : LSPRow → LSPRow)
    (hname : ∀ r, (f r).name = r.name) (huuid : ∀ r, (f r).uuid = r.uuid)
    (ports : List NeutronPort) :
    lspUuids (s.map f) ports = lspUuids s ports := by
  induction ports with
  | nil => rfl
  | cons p rest ih =>
    simp only [lspUuids, lsp_get_map s f hname, ih]
    cases lsp_get s p.id with
    | none => rfl
    | some lsp =>
      simp only [Option.map_some']
      rw [huuid lsp]

theorem applyRow_homog (g : ExtIds → ExtIds) (mk : Nat → OvnCommand)
    (hmk : ∀ pid r, applyCmdRow (mk pid) r
      = if pid == r.uuid then { r with external_ids := g r.external_ids }
        else r)
    (hg : ∀ m, g (g m) = g m) (pids : List Nat) (r : LSPRow) :
    applyRow (pids.map mk) r
      = if pids.any (fun pid => pid == r.uuid) then
          { r with external_ids := g r.external_ids }
        else r := by
  induction pids generalizing r with
  | nil => rfl
  | cons pid rest ih =>
    have step : applyRow (mk pid :: rest.map mk) r
        = applyRow (rest.map mk) (applyCmdRow (mk pid) r) := rfl
    simp only [List.map_cons, step, hmk]
    by_cases h : pid == r.uuid
    · simp only [h, if_true]
      rw [ih]
      by_cases h2 : rest.any (fun pid => pid == r.uuid)
      · simp only [h2, if_true, hg, List.any_cons, h, Bool.true_or, if_true]
      · simp only [h2, Bool.false_eq_true, if_false, List.any_cons, h,
          Bool.true_or, if_true]
    · simp only [h, Bool.false_eq_true, if_false]
      rw [ih]
      simp only [List.any_cons, h, Bool.false_or]

theorem applyRow_db_set_list (kvs : ExtIds)
    (hidem : ∀ m, mergeExtIds (mergeExtIds m kvs) kvs = mergeExtIds m kvs)
    (pids : List Nat) (r : LSPRow) :
    applyRow (pids.map (fun pid =>
        OvnCommand.db_set "Logical_Switch_Port" pid "external_ids" kvs)) r
      = if pids.any (fun pid => pid == r.uuid) then
          { r with external_ids := mergeExtIds r.external_ids kvs }
        else r := by
  refine applyRow_homog (fun m => mergeExtIds m kvs) _ ?_ hidem pids r
  intro pid r
  simp [applyCmdRow]

theorem applyRow_db_remove_list (key : String) (pids : List Nat)
    (r : LSPRow) :
    applyRow (pids.map (fun pid =>
        OvnCommand.db_remove "Logical_Switch_Port" pid "external_ids" key)) r
      = if pids.any (fun pid => pid == r.uuid) then
          { r with external_ids := extRemove r.external_ids key }
        else r := by
  refine applyRow_homog (fun m => extRemove m key) _ ?_
    (fun m => extRemove_extRemove m key) pids r
  intro pid r
  simp [applyCmdRow]

/-! ### Lemmas about the worker loop -/

theorem foldl_add_request (rs queue : List Request) :
    rs.foldl add_request queue = queue ++ rs := by
  induction rs generalizing queue with
  | nil => simp
  | cons r rest ih =>
    simp only [List.foldl_cons, add_request, ih, List.append_assoc,
      List.singleton_append]

theorem request_handler_nonexit (env : Env) (qs : List Request)
    (s : NbStore) (h : ∀ r ∈ qs, r.type ≠ REQ_TYPE_EXIT) :
    (request_handler env qs s).1.map eventRequest = qs.map some
    ∧ (request_handler env qs s).2 = qs.foldl (applyRequest env) s := by
  induction qs generalizing s with
  | nil => exact ⟨rfl, rfl⟩
  | cons r rest ih =>
    have hr : (r.type == REQ_TYPE_EXIT) = false := by
      have hne := h r (List.mem_cons_self _ _)
      simpa using hne
    have hrest : ∀ x ∈ rest, x.type ≠ REQ_TYPE_EXIT :=
      fun x hx => h x (List.mem_cons_of_mem _ hx)
    simp only [request_handler, hr, Bool.false_eq_true, if_false,
      List.foldl_cons, applyRequest]
    split
    · split
      · obtain ⟨ih1, ih2⟩ := ih _ hrest
        exact ⟨by simp [eventRequest, ih1], ih2⟩
      · obtain ⟨ih1, ih2⟩ := ih _ hrest
        exact ⟨by simp [eventRequest, ih1], ih2⟩
    · obtain ⟨ih1, ih2⟩ := ih _ hrest
      exact ⟨by simp [eventRequest, ih1], ih2⟩

theorem request_handler_append_exit (env : Env) (qs : List Request)
    (s : NbStore) (h : ∀ r ∈ qs, r.type ≠ REQ_TYPE_EXIT) :
    request_handler env (qs ++ [{ type := REQ_TYPE_EXIT }]) s
      = ((request_handler env qs s).1 ++ [WorkerEvent.exited],
         (request_handler env qs s).2) := by
  induction qs generalizing s with
  | nil =>
    simp only [List.nil_append, request_handler]
    rw [if_pos (by simp)]
  | cons r rest ih =>
    have hr : (r.type == REQ_TYPE_EXIT) = false := by
      have hne := h r (List.mem_cons_self _ _)
      simpa using hne
    have hrest : ∀ x ∈ rest, x.type ≠ REQ_TYPE_EXIT :=
      fun x hx => h x (List.mem_cons_of_mem _ hx)
    simp only [List.cons_append, request_handler, hr, Bool.false_eq_true,
      if_false]
    split
    · split
      · simp [ih _ hrest]
      · simp [ih _ hrest]
    · simp [ih _ hrest]

theorem request_handler_head_event (env : Env) (r : Request)
    (rest : List Request) (s : NbStore) (h : r.type ≠ REQ_TYPE_EXIT) :
    ((request_handler env (r :: rest) s).1.head?.bind eventRequest)
      = some r := by
  have hr : (r.type == REQ_TYPE_EXIT) = false := by simpa using h
  simp only [request_handler, hr, Bool.false_eq_true, if_false]
  split
  · split
    · simp [eventRequest]
    · simp [eventRequest]
  · simp [eventRequest]

/-! ## Claim theorems -/

/-- C1: for every sequence of non-exit requests enqueued via
`add_request` in order, the worker's `_request_handler` loop dequeues
and executes them in exactly that order, one at a time: the event
trace lists the requests in enqueue order, and the final store is the
left fold of the per-request effects, each request's effect completed
on the store before the next is dequeued (strict FIFO, single
consumer). -/
theorem request_handler_fifo_order (env : Env) (reqs : List Request)
    (s : NbStore) (h : ∀ r ∈ reqs, r.type ≠ REQ_TYPE_EXIT) :
    (request_handler env (reqs.foldl add_request []) s).1.map eventRequest
      = reqs.map some
    ∧ (request_handler env (reqs.foldl add_request []) s).2
      = reqs.foldl (applyRequest env) s := by
  rw [foldl_add_request, List.nil_append]
  exact request_handler_nonexit env reqs s h

theorem request_handler_fifo_order_witness :
    (request_handler envW ([reqA, reqB, reqC].foldl add_request []) sW).1.map
        eventRequest
      = [reqA, reqB, reqC].map some
    ∧ (request_handler envW ([reqA, reqB, reqC].foldl add_request []) sW).2
      = [reqA, reqB, reqC].foldl (applyRequest envW) sW :=
  request_handler_fifo_order envW [reqA, reqB, reqC] sW (by decide)

/-- C4: when a dequeued non-exit request's handler raises, the worker
records the failure, does not propagate it and does not terminate: the
trace continues with the next queued request (whose event is about
that request), and the store is what the remaining queue alone
produces; only the exit sentinel breaks the loop. -/
theorem request_handler_survives_handler_error (env : Env)
    (B C : Request) (rest : List Request) (s : NbStore)
    (hB : B.type ≠ REQ_TYPE_EXIT) (hC : C.type ≠ REQ_TYPE_EXIT)
    (handler : ReqInfo → NbStore → Except String NbStore)
    (hd : bgpvpn_request_func_maps env B.type = some handler)
    (e : String) (he : handler B.info s = Except.error e) :
    request_handler env (B :: C :: rest) s
      = (WorkerEvent.handlerError B
           :: (request_handler env (C :: rest) s).1,
         (request_handler env (C :: rest) s).2)
    ∧ ((request_handler env (C :: rest) s).1.head?.bind eventRequest)
        = some C := by
  constructor
  · have hBr : (B.type == REQ_TYPE_EXIT) = false := by simpa using hB
    simp only [request_handler, hBr, Bool.false_eq_true, if_false, hd, he]
  · exact request_handler_head_event env C rest s hC

theorem request_handler_survives_handler_error_witness :
    request_handler envW (reqBadW :: reqC :: []) sW
      = (WorkerEvent.handlerError reqBadW
           :: (request_handler envW (reqC :: []) sW).1,
         (request_handler envW (reqC :: []) sW).2)
    ∧ ((request_handler envW (reqC :: []) sW).1.head?.bind eventRequest)
        = some reqC :=
  request_handler_survives_handler_error envW reqBadW reqC [] sW
    (by decide) (by decide) (create_router_assoc envW) rfl
    "KeyError: router_association" rfl

/-- C5: `shutdown` enqueues the exit sentinel on the same FIFO and
joins the worker before stopping the store connection: the combined
trace is the full processing of every previously enqueued request, in
order, followed by the loop exit and only then the store close — no
prior request is dropped. -/
theorem shutdown_drains_pending_requests (env : Env)
    (pending : List Request) (s : NbStore)
    (h : ∀ r ∈ pending, r.type ≠ REQ_TYPE_EXIT) :
    shutdown env pending s
      = ((request_handler env pending s).1
           ++ [WorkerEvent.exited, WorkerEvent.storeClosed],
         (request_handler env pending s).2)
    ∧ (request_handler env pending s).1.map eventRequest
        = pending.map some := by
  constructor
  · unfold shutdown
    rw [request_handler_append_exit env pending s h]
    simp
  · exact (request_handler_nonexit env pending s h).1

theorem shutdown_drains_pending_requests_witness :
    shutdown envW [reqA, reqB] sW
      = ((request_handler envW [reqA, reqB] sW).1
           ++ [WorkerEvent.exited, WorkerEvent.storeClosed],
         (request_handler envW [reqA, reqB] sW).2)
    ∧ (request_handler envW [reqA, reqB] sW).1.map eventRequest
        = [reqA, reqB].map some :=
  shutdown_drains_pending_requests envW [reqA, reqB] sW (by decide)

/-- C9: a dequeued request whose type is neither the exit sentinel nor
one of the three registered types resolves to no handler
(`_bgpvpn_request_func_maps.get` yields `None`): the worker invokes no
handler, raises nothing, leaves the store untouched and proceeds to
the next request. -/
theorem unrecognized_request_is_skipped (env : Env) (r : Request)
    (rest : List Request) (s : NbStore)
    (h1 : r.type ≠ REQ_TYPE_EXIT)
    (h2 : r.type ≠ REQ_TYPE_CREATE_ROUTER_ASSOC)
    (h3 : r.type ≠ REQ_TYPE_DELETE_ROUTER_ASSOC)
    (h4 : r.type ≠ REQ_TYPE_ADD_ROUTER_INTERFACE) :
    bgpvpn_request_func_maps env r.type = none
    ∧ request_handler env (r :: rest) s
        = (WorkerEvent.skipped r :: (request_handler env rest s).1,
           (request_handler env rest s).2) := by
  have hd : bgpvpn_request_func_maps env r.type = none := by
    unfold bgpvpn_request_func_maps
    rw [if_neg (by simpa using h2), if_neg (by simpa using h3),
      if_neg (by simpa using h4)]
  refine ⟨hd, ?_⟩
  have hr : (r.type == REQ_TYPE_EXIT) = false := by simpa using h1
  simp only [request_handler, hr, Bool.false_eq_true, if_false, hd]

/-- C2: when `create_router_assoc` succeeds, its whole effect is one
`_execute_commands` call on the command list it built (one atomic
transaction), and afterwards every port returned by the directory
lookup (device_id = the association's router, device_owner in the
router-port-owner set) carries both annotations:
'neutron_bgpvpn:vni' ↦ str(bgpvpn['vni']) and 'neutron_bgpvpn:as' ↦
str(bgp_as). -/
theorem create_router_assoc_annotates_router_ports (env : Env)
    (info : ReqInfo) (s s' : NbStore) (ra : RouterAssoc) (b : BgpvpnRec)
    (hra : info.router_association = some ra) (hb : info.bgpvpn = some b)
    (h : create_router_assoc env info s = Except.ok s') :
    (∃ commands,
       create_router_assoc_commands env info s = Except.ok commands
       ∧ s' = execute_commands s commands)
    ∧ ∀ p ∈ get_ports env ra.router_id,
        ∃ row, lsp_get s' p.id = some row
          ∧ extGet row.external_ids OVN_EVPN_VNI_EXT_ID_KEY
              = some (pyStr b.vni)
          ∧ extGet row.external_ids OVN_EVPN_AS_EXT_ID_KEY
              = some (toString env.bgp_as) := by
  unfold create_router_assoc at h
  cases hcmds : create_router_assoc_commands env info s with
  | error e => rw [hcmds] at h; exact absurd h (by simp)
  | ok commands =>
    rw [hcmds] at h
    have hs' : s' = execute_commands s commands := by
      injection h with h'
      exact h'.symm
    refine ⟨⟨commands, rfl, hs'⟩, ?_⟩
    rw [create_router_assoc_commands, hra, hb] at hcmds
    simp only [getKey] at hcmds
    cases hu : lspUuids s (get_ports env ra.router_id) with
    | error e => rw [hu] at hcmds; simp at hcmds
    | ok us =>
      rw [hu] at hcmds
      have hc : commands = us.map (fun port_id =>
          OvnCommand.db_set "Logical_Switch_Port" port_id "external_ids"
            [(OVN_EVPN_VNI_EXT_ID_KEY, pyStr b.vni),
             (OVN_EVPN_AS_EXT_ID_KEY, toString env.bgp_as)]) := by
        injection hcmds with h'
        exact h'.symm
      intro p hp
      obtain ⟨row, hrow, hmem⟩ :=
        lspUuids_mem s (get_ports env ra.router_id) us hu p hp
      have hkeys : OVN_EVPN_VNI_EXT_ID_KEY ≠ OVN_EVPN_AS_EXT_ID_KEY := by
        decide
      have hget : lsp_get s' p.id = some (applyRow commands row) := by
        rw [hs', execute_commands_eq_map,
          lsp_get_map s _ (applyRow_name commands), hrow]
        rfl
      have hany : us.any (fun pid => pid == row.uuid) = true :=
        List.any_eq_true.mpr ⟨row.uuid, hmem, by simp⟩
      have happly : applyRow commands row = { row with external_ids := mergeExtIds row.external_ids [(OVN_EVPN_VNI_EXT_ID_KEY, pyStr b.vni), (OVN_EVPN_AS_EXT_ID_KEY, toString env.bgp_as)] } := by
        rw [hc, applyRow_db_set_list _
          (fun m => mergeExtIds_pair_idem m _ _ _ _ hkeys) us row,
          if_pos hany]
      refine ⟨applyRow commands row, hget, ?_, ?_⟩
      · rw [happly]
        exact extGet_mergeExtIds_pair_fst _ _ _ _ _ hkeys
      · rw [happly]
        exact extGet_mergeExtIds_pair_snd _ _ _ _ _

theorem create_router_assoc_annotates_router_ports_witness :
    ∃ row, lsp_get createResultW portW.id = some row
      ∧ extGet row.external_ids OVN_EVPN_VNI_EXT_ID_KEY
          = some (pyStr bW.vni)
      ∧ extGet row.external_ids OVN_EVPN_AS_EXT_ID_KEY
          = some (toString envW.bgp_as) :=
  (create_router_assoc_annotates_router_ports envW infoCreateW sW
    createResultW raW bW rfl rfl rfl).2 portW (by decide)

/-- C3: when `delete_router_assoc` succeeds, every port returned by
the directory lookup has exactly the 'neutron_bgpvpn:vni' key removed
from its `external_ids` map: that key resolves to nothing afterwards,
while every other key — the 'neutron_bgpvpn:as' key included — keeps
its former value. -/
theorem delete_router_assoc_removes_only_vni_key (env : Env)
    (info : ReqInfo) (s s' : NbStore) (ra : RouterAssoc)
    (hra : info.router_association = some ra)
    (h : delete_router_assoc env info s = Except.ok s') :
    ∀ p ∈ get_ports env ra.router_id,
      ∃ row row', lsp_get s p.id = some row
        ∧ lsp_get s' p.id = some row'
        ∧ extGet row'.external_ids OVN_EVPN_VNI_EXT_ID_KEY = none
        ∧ extGet row'.external_ids OVN_EVPN_AS_EXT_ID_KEY
            = extGet row.external_ids OVN_EVPN_AS_EXT_ID_KEY
        ∧ ∀ k, k ≠ OVN_EVPN_VNI_EXT_ID_KEY →
            extGet row'.external_ids k = extGet row.external_ids k := by
  unfold delete_router_assoc at h
  cases hcmds : delete_router_assoc_commands env info s with
  | error e => rw [hcmds] at h; exact absurd h (by simp)
  | ok commands =>
    rw [hcmds] at h
    have hs' : s' = execute_commands s commands := by
      injection h with h'
      exact h'.symm
    rw [delete_router_assoc_commands, hra] at hcmds
    simp only [getKey] at hcmds
    cases hu : lspUuids s (get_ports env ra.router_id) with
    | error e => rw [hu] at hcmds; simp at hcmds
    | ok us =>
      rw [hu] at hcmds
      have hc : commands = us.map (fun port_id =>
          OvnCommand.db_remove "Logical_Switch_Port" port_id "external_ids"
            OVN_EVPN_VNI_EXT_ID_KEY) := by
        injection hcmds with h'
        exact h'.symm
      intro p hp
      obtain ⟨row, hrow, hmem⟩ :=
        lspUuids_mem s (get_ports env ra.router_id) us hu p hp
      have hget : lsp_get s' p.id = some (applyRow commands row) := by
        rw [hs', execute_commands_eq_map,
          lsp_get_map s _ (applyRow_name commands), hrow]
        rfl
      have hany : us.any (fun pid => pid == row.uuid) = true :=
        List.any_eq_true.mpr ⟨row.uuid, hmem, by simp⟩
      have happly : applyRow commands row = { row with external_ids := extRemove row.external_ids OVN_EVPN_VNI_EXT_ID_KEY } := by
        rw [hc, applyRow_db_remove_list _ us row, if_pos hany]
      refine ⟨row, applyRow commands row, hrow, hget, ?_, ?_, ?_⟩
      · rw [happly]
        exact extGet_extRemove_self _ _
      · rw [happly]
        exact extGet_extRemove_ne _ _ _ (by decide)
      · intro k hk
        rw [happly]
        exact extGet_extRemove_ne _ _ _ hk

theorem delete_router_assoc_removes_only_vni_key_witness :
    ∃ row row', lsp_get createResultW portW.id = some row
      ∧ lsp_get deleteResultW portW.id = some row'
      ∧ extGet row'.external_ids OVN_EVPN_VNI_EXT_ID_KEY = none
      ∧ extGet row'.external_ids OVN_EVPN_AS_EXT_ID_KEY
          = extGet row.external_ids OVN_EVPN_AS_EXT_ID_KEY
      ∧ ∀ k, k ≠ OVN_EVPN_VNI_EXT_ID_KEY →
          extGet row'.external_ids k = extGet row.external_ids k :=
  delete_router_assoc_removes_only_vni_key envW infoDeleteW
    createResultW deleteResultW raW rfl rfl portW (by decide)

/-- C7: `create_router_assoc` is idempotent — a second run with the
same inputs on the store the first run produced succeeds and leaves
the store exactly as the first run left it, because the directory
lookup and row resolution are unchanged and re-setting the same
key/value pairs does not change the `external_ids` maps. -/
theorem create_router_assoc_idempotent (env : Env) (info : ReqInfo)
    (s s' : NbStore) (h : create_router_assoc env info s = Except.ok s') :
    create_router_assoc env info s' = Except.ok s' := by
  unfold create_router_assoc at h ⊢
  cases hcmds : create_router_assoc_commands env info s with
  | error e => rw [hcmds] at h; exact absurd h (by simp)
  | ok commands =>
    rw [hcmds] at h
    have hs' : s' = execute_commands s commands := by
      injection h with h'
      exact h'.symm
    obtain ⟨ra, hra⟩ : ∃ ra, info.router_association = some ra := by
      cases hx : info.router_association with
      | some ra => exact ⟨ra, rfl⟩
      | none =>
        rw [create_router_assoc_commands, hx] at hcmds
        simp [getKey] at hcmds
    obtain ⟨b, hb⟩ : ∃ b, info.bgpvpn = some b := by
      cases hx : info.bgpvpn with
      | some b => exact ⟨b, rfl⟩
      | none =>
        rw [create_router_assoc_commands, hra, hx] at hcmds
        simp [getKey] at hcmds
    rw [create_router_assoc_commands, hra, hb] at hcmds
    simp only [getKey] at hcmds
    cases hu : lspUuids s (get_ports env ra.router_id) with
    | error e => rw [hu] at hcmds; simp at hcmds
    | ok us =>
      rw [hu] at hcmds
      have hc : commands = us.map (fun port_id => OvnCommand.db_set "Logical_Switch_Port" port_id "external_ids" [(OVN_EVPN_VNI_EXT_ID_KEY, pyStr b.vni), (OVN_EVPN_AS_EXT_ID_KEY, toString env.bgp_as)]) := by
        injection hcmds with h'
        exact h'.symm
      have hmap : s' = s.map (applyRow commands) := by
        rw [hs', execute_commands_eq_map]
      have hu2 : lspUuids s' (get_ports env ra.router_id)
          = Except.ok us := by
        rw [hmap, lspUuids_map s (applyRow commands)
          (applyRow_name commands) (applyRow_uuid commands), hu]
      have hcmds2 : create_router_assoc_commands env info s'
          = Except.ok commands := by
        rw [create_router_assoc_commands, hra, hb]
        simp only [getKey]
        rw [hu2, hc]
      have hkeys : OVN_EVPN_VNI_EXT_ID_KEY ≠ OVN_EVPN_AS_EXT_ID_KEY := by
        decide
      have hidem : ∀ m, mergeExtIds (mergeExtIds m [(OVN_EVPN_VNI_EXT_ID_KEY, pyStr b.vni), (OVN_EVPN_AS_EXT_ID_KEY, toString env.bgp_as)]) [(OVN_EVPN_VNI_EXT_ID_KEY, pyStr b.vni), (OVN_EVPN_AS_EXT_ID_KEY, toString env.bgp_as)] = mergeExtIds m [(OVN_EVPN_VNI_EXT_ID_KEY, pyStr b.vni), (OVN_EVPN_AS_EXT_ID_KEY, toString env.bgp_as)] :=
        fun m => mergeExtIds_pair_idem m _ _ _ _ hkeys
      have hFF : ∀ r, applyRow commands (applyRow commands r)
          = applyRow commands r := by
        intro r
        rw [hc, applyRow_db_set_list _ hidem us r]
        by_cases hcond : us.any (fun pid => pid == r.uuid) = true
        · rw [if_pos hcond, applyRow_db_set_list _ hidem us _,
            if_pos hcond, hidem]
        · rw [if_neg hcond, applyRow_db_set_list _ hidem us r,
            if_neg hcond]
      have hexec : execute_commands s' commands = s' := by
        rw [hmap, execute_commands_eq_map, List.map_map]
        rw [show applyRow commands ∘ applyRow commands = applyRow commands
          from funext hFF]
      rw [hcmds2]
      show Except.ok (execute_commands s' commands) = Except.ok s'
      rw [hexec]

theorem create_router_assoc_idempotent_witness :
    create_router_assoc envW infoCreateW createResultW
      = Except.ok createResultW :=
  create_router_assoc_idempotent envW infoCreateW sW createResultW rfl

/-- C10: neither `create_router_assoc` nor `add_router_interface`
validates that the bgpvpn carries a VNI: when `bgpvpn.get('vni')` is
`None`, every `db_set` command built by `create_router_assoc` carries
the literal string "None" as the VNI annotation value, and
`add_router_interface` proceeds and leaves "None" on the target port —
all annotation values are unconditionally stringified. -/
theorem missing_vni_written_as_None_string (env : Env) (info : ReqInfo)
    (b : BgpvpnRec) (s : NbStore) (hb : info.bgpvpn = some b)
    (hvni : b.vni = none) :
    (∀ commands,
       create_router_assoc_commands env info s = Except.ok commands →
       ∀ c ∈ commands, ∃ u, c = OvnCommand.db_set "Logical_Switch_Port" u "external_ids" [(OVN_EVPN_VNI_EXT_ID_KEY, "None"), (OVN_EVPN_AS_EXT_ID_KEY, toString env.bgp_as)])
    ∧ (∀ port_id s', info.port_id = some port_id →
         add_router_interface env info s = Except.ok s' →
         ∃ row, lsp_get s' port_id = some row
           ∧ extGet row.external_ids OVN_EVPN_VNI_EXT_ID_KEY
               = some "None") := by
  constructor
  · intro commands hcmds cc hcc
    obtain ⟨ra, hra⟩ : ∃ ra, info.router_association = some ra := by
      cases hx : info.router_association with
      | some ra => exact ⟨ra, rfl⟩
      | none =>
        rw [create_router_assoc_commands, hx] at hcmds
        simp [getKey] at hcmds
    rw [create_router_assoc_commands, hra, hb] at hcmds
    simp only [getKey, hvni, pyStr] at hcmds
    cases hu : lspUuids s (get_ports env ra.router_id) with
    | error e => rw [hu] at hcmds; simp at hcmds
    | ok us =>
      rw [hu] at hcmds
      have hc : commands = us.map (fun port_id => OvnCommand.db_set "Logical_Switch_Port" port_id "external_ids" [(OVN_EVPN_VNI_EXT_ID_KEY, "None"), (OVN_EVPN_AS_EXT_ID_KEY, toString env.bgp_as)]) := by
        injection hcmds with h'
        exact h'.symm
      rw [hc] at hcc
      obtain ⟨u, hmem, hcu⟩ := List.mem_map.mp hcc
      exact ⟨u, hcu.symm⟩
  · intro port_id s' hpid hadd
    rw [add_router_interface, hpid, hb] at hadd
    simp only [getKey, hvni, pyStr] at hadd
    cases hlsp : lsp_get s port_id with
    | none => rw [hlsp] at hadd; simp at hadd
    | some lsp =>
      rw [hlsp] at hadd
      have hs' : s' = applyCommand s (OvnCommand.db_set "Logical_Switch_Port" lsp.uuid "external_ids" [(OVN_EVPN_VNI_EXT_ID_KEY, "None"), (OVN_EVPN_AS_EXT_ID_KEY, toString env.bgp_as)]) := by
        injection hadd with h'
        exact h'.symm
      have hget : lsp_get s' port_id = some (applyCmdRow (OvnCommand.db_set "Logical_Switch_Port" lsp.uuid "external_ids" [(OVN_EVPN_VNI_EXT_ID_KEY, "None"), (OVN_EVPN_AS_EXT_ID_KEY, toString env.bgp_as)]) lsp) := by
        rw [hs']
        show lsp_get (s.map _) port_id = _
        rw [lsp_get_map s _ (fun r => applyCmdRow_name _ r), hlsp]
        rfl
      have happly : applyCmdRow (OvnCommand.db_set "Logical_Switch_Port" lsp.uuid "external_ids" [(OVN_EVPN_VNI_EXT_ID_KEY, "None"), (OVN_EVPN_AS_EXT_ID_KEY, toString env.bgp_as)]) lsp = { lsp with external_ids := mergeExtIds lsp.external_ids [(OVN_EVPN_VNI_EXT_ID_KEY, "None"), (OVN_EVPN_AS_EXT_ID_KEY, toString env.bgp_as)] } := by
        simp [applyCmdRow]
      refine ⟨_, hget, ?_⟩
      rw [happly]
      exact extGet_mergeExtIds_pair_fst _ _ _ _ _ (by decide)

theorem missing_vni_written_as_None_string_witness :
    ∃ row, lsp_get addResultW "port-3" = some row
      ∧ extGet row.external_ids OVN_EVPN_VNI_EXT_ID_KEY = some "None" :=
  (missing_vni_written_as_None_string envW infoAddW bNoneW sW rfl rfl).2
    "port-3" addResultW rfl rfl

theorem pyTruthyList_eq_false_iff (l : List String) :
    pyTruthyList l = false ↔ l = [] := by
  cases l <;> simp [pyTruthyList]

theorem pyInListStr_supported_iff (o : Option String) :
    pyInListStr o OVN_SUPPORTED_BGPVPN_TYPES = true ↔ o = some "l3" := by
  cases o with
  | none => simp [pyInListStr]
  | some t => simp [pyInListStr, OVN_SUPPORTED_BGPVPN_TYPES]

/-- C6 (amended): `_common_precommit_checks` — invoked unchanged by
both `create_bgpvpn_precommit` and `update_bgpvpn_precommit` — accepts
a record exactly when route_distinguishers, route_targets,
import_targets and export_targets are empty, local_pref is unset or
set to the falsy value 0 (Python truthiness), and the type is exactly
'l3'; every raised error names an attribute that does offend. -/
theorem common_precommit_checks_spec (bgpvpn : BgpvpnApi) :
    (common_precommit_checks bgpvpn = Except.ok ()
      ↔ (bgpvpn.route_distinguishers = [] ∧ bgpvpn.route_targets = []
         ∧ bgpvpn.import_targets = [] ∧ bgpvpn.export_targets = []
         ∧ (bgpvpn.local_pref = none ∨ bgpvpn.local_pref = some 0)
         ∧ bgpvpn.type = some "l3"))
    ∧ (∀ e, common_precommit_checks bgpvpn = Except.error e
         → offendingAttr bgpvpn e)
    ∧ create_bgpvpn_precommit bgpvpn = common_precommit_checks bgpvpn
    ∧ (∀ old, update_bgpvpn_precommit old bgpvpn
         = common_precommit_checks bgpvpn) := by
  refine ⟨?_, ?_, rfl, fun _ => rfl⟩
  · unfold common_precommit_checks
    split_ifs with h1 h2 h3 h4 h5 h6
    · constructor
      · intro hcontra
        exact absurd hcontra (by simp)
      · rintro ⟨hrd, -⟩
        rw [hrd] at h1
        exact absurd h1 (by simp [pyTruthyList])
    · constructor
      · intro hcontra
        exact absurd hcontra (by simp)
      · rintro ⟨-, hrt, -⟩
        rw [hrt] at h2
        exact absurd h2 (by simp [pyTruthyList])
    · constructor
      · intro hcontra
        exact absurd hcontra (by simp)
      · rintro ⟨-, -, hit, -⟩
        rw [hit] at h3
        exact absurd h3 (by simp [pyTruthyList])
    · constructor
      · intro hcontra
        exact absurd hcontra (by simp)
      · rintro ⟨-, -, -, het, -⟩
        rw [het] at h4
        exact absurd h4 (by simp [pyTruthyList])
    · constructor
      · intro hcontra
        exact absurd hcontra (by simp)
      · rintro ⟨-, -, -, -, hlp, -⟩
        rcases hlp with hlp | hlp <;> rw [hlp] at h5 <;>
          exact absurd h5 (by simp [pyTruthyOptNat])
    · constructor
      · intro hcontra
        exact absurd hcontra (by simp)
      · rintro ⟨-, -, -, -, -, ht⟩
        have := (pyInListStr_supported_iff bgpvpn.type).mpr ht
        rw [this] at h6
        exact absurd h6 (by simp)
    · have h1' : bgpvpn.route_distinguishers = [] :=
        (pyTruthyList_eq_false_iff _).mp (by simpa using h1)
      have h2' : bgpvpn.route_targets = [] :=
        (pyTruthyList_eq_false_iff _).mp (by simpa using h2)
      have h3' : bgpvpn.import_targets = [] :=
        (pyTruthyList_eq_false_iff _).mp (by simpa using h3)
      have h4' : bgpvpn.export_targets = [] :=
        (pyTruthyList_eq_false_iff _).mp (by simpa using h4)
      have h5' : bgpvpn.local_pref = none ∨ bgpvpn.local_pref = some 0 := by
        cases hlp : bgpvpn.local_pref with
        | none => exact Or.inl rfl
        | some n =>
          rw [hlp] at h5
          right
          have hn : n = 0 := by simpa [pyTruthyOptNat] using h5
          rw [hn]
      have h6' : bgpvpn.type = some "l3" := by
        refine (pyInListStr_supported_iff bgpvpn.type).mp ?_
        simpa using h6
      exact Iff.intro (fun _ => ⟨h1', h2', h3', h4', h5', h6'⟩)
        (fun _ => rfl)
  · intro e he
    unfold common_precommit_checks at he
    split_ifs at he with h1 h2 h3 h4 h5 h6
    · injection he with h'
      rw [← h']
      show bgpvpn.route_distinguishers ≠ []
      intro hh
      rw [hh] at h1
      exact absurd h1 (by simp [pyTruthyList])
    · injection he with h'
      rw [← h']
      show bgpvpn.route_targets ≠ []
      intro hh
      rw [hh] at h2
      exact absurd h2 (by simp [pyTruthyList])
    · injection he with h'
      rw [← h']
      show bgpvpn.import_targets ≠ []
      intro hh
      rw [hh] at h3
      exact absurd h3 (by simp [pyTruthyList])
    · injection he with h'
      rw [← h']
      show bgpvpn.export_targets ≠ []
      intro hh
      rw [hh] at h4
      exact absurd h4 (by simp [pyTruthyList])
    · injection he with h'
      rw [← h']
      show ∃ n, bgpvpn.local_pref = some n ∧ n ≠ 0
      cases hlp : bgpvpn.local_pref with
      | none => rw [hlp] at h5; exact absurd h5 (by simp [pyTruthyOptNat])
      | some n =>
        rw [hlp] at h5
        exact ⟨n, rfl, by simpa [pyTruthyOptNat] using h5⟩
    · injection he with h'
      rw [← h']
      refine ⟨rfl, ?_⟩
      intro heq
      have := (pyInListStr_supported_iff bgpvpn.type).mpr heq
      rw [this] at h6
      exact absurd h6 (by simp)

theorem common_precommit_checks_spec_witness :
    offendingAttr bgpvpnRejectW BgpvpnDriverError.rdNotSupported :=
  (common_precommit_checks_spec bgpvpnRejectW).2.1
    BgpvpnDriverError.rdNotSupported rfl

/-- C6 counterexample: a record whose `local_pref` attribute is set to
the value 0 — a set, non-empty value — with every other restricted
attribute unset and type exactly 'l3' is accepted by
`_common_precommit_checks` (and so by `create_bgpvpn_precommit`),
whereas the claim as stated demands a rejection naming local_pref:
the code tests Python truthiness, under which 0 counts as unset. -/
theorem local_pref_zero_accepted_counterexample :
    bgpvpnLocalPrefZeroW.local_pref = some 0
    ∧ bgpvpnLocalPrefZeroW.route_distinguishers = []
    ∧ bgpvpnLocalPrefZeroW.route_targets = []
    ∧ bgpvpnLocalPrefZeroW.import_targets = []
    ∧ bgpvpnLocalPrefZeroW.export_targets = []
    ∧ bgpvpnLocalPrefZeroW.type = some "l3"
    ∧ common_precommit_checks bgpvpnLocalPrefZeroW = Except.ok ()
    ∧ create_bgpvpn_precommit bgpvpnLocalPrefZeroW = Except.ok () :=
  ⟨rfl, rfl, rfl, rfl, rfl, rfl, rfl, rfl⟩

/-- C8: `registry_router_interface_created` with a payload carrying a
port enqueues nothing when the filtered BGPVPN lookup for the
interface's router is empty, and enqueues exactly one
`add_router_interface` request carrying the new port's id and the
first BGPVPN of the lookup otherwise. -/
theorem router_interface_created_enqueue_rule (db : List BgpvpnDbEntry)
    (payload : RouterInterfacePayload) (port : NeutronPort)
    (hp : payload.port = some port) :
    (get_bgpvpns db payload.resource_id = []
       → registry_router_interface_created db payload = none)
    ∧ (∀ b bs, get_bgpvpns db payload.resource_id = b :: bs
        → registry_router_interface_created db payload
            = some { type := REQ_TYPE_ADD_ROUTER_INTERFACE,
                     info := { router_association := none,
                               bgpvpn := some b,
                               port_id := some port.id } }) := by
  constructor
  · intro hempty
    simp [registry_router_interface_created, hp, hempty]
  · intro b bs hcons
    simp [registry_router_interface_created, hp, hcons]

theorem router_interface_created_enqueue_rule_witness :
    registry_router_interface_created bgpvpnDbW payloadNoAssocW = none
    ∧ registry_router_interface_created bgpvpnDbW payloadAssocW
        = some { type := REQ_TYPE_ADD_ROUTER_INTERFACE,
                 info := { router_association := none,
                           bgpvpn := some bW,
                           port_id := some "port-1" } } :=
  ⟨(router_interface_created_enqueue_rule bgpvpnDbW payloadNoAssocW
      { id := "port-9" } rfl).1 rfl,
   (router_interface_created_enqueue_rule bgpvpnDbW payloadAssocW
      { id := "port-1", device_id := "router-1",
        device_owner := "network:router_interface" } rfl).2 bW [] rfl⟩

theorem unrecognized_request_is_skipped_witness :
    bgpvpn_request_func_maps envW reqUnknownW.type = none
    ∧ request_handler envW (reqUnknownW :: [reqC]) sW
        = (WorkerEvent.skipped reqUnknownW
             :: (request_handler envW [reqC] sW).1,
           (request_handler envW [reqC] sW).2) :=
  unrecognized_request_is_skipped envW reqUnknownW [reqC] sW
    (by decide) (by decide) (by decide) (by decide)

end BgpvpnOvn
